import Mathlib

/-!
Verification of the conversation session protocol of the recipe chatbot
backend: message normalization and turn processing (backend/utils.py),
identity resolution and the chat endpoint (backend/main.py), and the
conversation store (backend/db.py), shallowly embedded in Lean.
-/

/-- A chat message: a record with a `role` and a `content` string
(`ChatMessage` in backend/main.py; the plain dicts of backend/utils.py). -/
structure Message where
  role : String
  content : String
deriving DecidableEq, Repr

/-- The fixed system prompt text, `SYSTEM_PROMPT` in backend/utils.py
(Python juxtaposed string literals concatenate). -/
def SYSTEM_PROMPT : String :=
  "You are an expert mom recommending delicious and useful recipes " ++
  "to grad students and working professionals who are too busy to cook. " ++
  "Always start by asking clarifying questions to the user. " ++
  "Ask about dietary restrictions, how much time they have, how many people they are cooking for, etc. " ++
  "Once the questions are answered, provide an ingredient list and precise measurements. " ++
  "For the ingredient list, always note which ones are optional. " ++
  "For the measurements, come up with creative ways to describe the quantities that someone who doesn't cook " ++
  "regularly would understand " ++
  "For cooking instructions, provide explanation on what the dish should look like before it's time to move to the next step. " ++
  "For example if they are sauteing onions, explain that the onions should be soft and golden brown. " ++
  "Never suggest recipes that require rare ingredients or equipment. " ++
  "Never use derogatory language and be patient with the user. " ++
  "If a user asks for a recipe that is unsafe, unethical, or promotes harmful activities, " ++
  "politely decline and state you cannot fulfill that request, without being preachy." ++
  "Do not invent new recipes, stick to the ones you know. " ++
  "Feel free to suggest variations of the recipes, like do this for more spicy option or do that for a healthier option. " ++
  "Structure all your recipe responses clearly using Markdown for formatting." ++
  "Start with recipe name, 1 line description, then ingredients, all in H2 headers" ++
  "Verify whether the user has most of the ingredients before providing instructions, again in H2 header" ++
  "If not, suggest substitutions. " ++
  "Separate the instructions into preparation and cooking steps. "

/-- The system prompt message injected by `get_agent_response`
(backend/utils.py line 78). -/
def systemPromptMessage : Message :=
  ⟨"system", SYSTEM_PROMPT⟩

/-- The guard of backend/utils.py line 77, seen from the `else` side:
the history is non-empty and its first element's role is "system"
(Python's `not messages or messages[0]["role"] != "system"` negated;
the `or` short-circuits, so the index is only read when non-empty). -/
def headRoleIsSystem : List Message → Bool
  | [] => false
  | m :: _ => m.role == "system"

/-- The normalization step of `get_agent_response` (backend/utils.py
lines 76-80): prepend the system prompt message unless the history is
non-empty with a leading system-role message. -/
def normalizeMessages (messages : List Message) : List Message :=
  if messages.isEmpty || !headRoleIsSystem messages then
    systemPromptMessage :: messages
  else
    messages

/-- Drop leading whitespace characters from a character list. -/
def stripLeft : List Char → List Char
  | [] => []
  | c :: cs => if c.isWhitespace then stripLeft cs else c :: cs

/-- Python `str.strip()` with no argument (backend/utils.py line 89):
remove the leading and the trailing run of whitespace characters. -/
def pyStrip (s : String) : String :=
  String.mk ((stripLeft (stripLeft s.data).reverse).reverse)

/-- `get_agent_response` (backend/utils.py lines 59-94). The litellm call
is abstracted as `complete`, which either fails (raises) with a message or
returns the completion's reply message
(`completion["choices"][0]["message"]`). The code takes the reply's
content, strips surrounding whitespace (Python `.strip()`, embedded as
`pyStrip`) and appends it with role "assistant". -/
def get_agent_response (complete : List Message → Except String Message)
    (messages : List Message) : Except String (List Message) :=
  let current_messages := normalizeMessages messages
  match complete current_messages with
  | Except.error e => Except.error e
  | Except.ok reply =>
      Except.ok (current_messages ++ [⟨"assistant", pyStrip reply.content⟩])

/-- Python truthiness of an optional string (`not user_id`,
backend/main.py line 98): `None` and the empty string are falsy. -/
def truthy : Option String → Bool
  | none => false
  | some s => !s.isEmpty

/-- Canonical textual form of `str(uuid.uuid4())` (backend/main.py
line 99): 32 hex digits grouped 8-4-4-4-12 with hyphens between the
groups; the digits themselves are the random input, abstracted as `h`. -/
def uuid4_string (h : List Char) : String :=
  String.mk (h.take 8 ++ '-' :: ((h.drop 8).take 4 ++ '-' ::
    ((h.drop 12).take 4 ++ '-' :: ((h.drop 16).take 4 ++ '-' ::
      (h.drop 20).take 12))))

/-- The identity-resolution block of `chat_endpoint` (backend/main.py
lines 97-103). `cookieId` is the `user_id` cookie, `payloadId` is
`payload.user_id`, `fresh` is the generated `str(uuid.uuid4())`. Returns
the resolved id and whether the `user_id` cookie was (re)set. -/
def resolve_user_id (cookieId payloadId : Option String) (fresh : String) :
    String × Bool :=
  if !truthy cookieId && !truthy payloadId then
    (fresh, true)
  else if truthy payloadId then
    (payloadId.getD "", true)
  else
    (cookieId.getD "", false)

/-- `save_conversation` (backend/db.py lines 33-40): `update_one` with
`upsert=True` on the conversations collection, modelled as an association
list keyed by user id — replace the record's messages when the key exists,
insert a new record otherwise. -/
def save_conversation (store : List (String × List Message))
    (user_id : String) (messages : List Message) :
    List (String × List Message) :=
  if store.any (fun r => r.1 == user_id) then
    store.map (fun r => if r.1 == user_id then (r.1, messages) else r)
  else
    store ++ [(user_id, messages)]

/-- `get_conversation` (backend/db.py lines 42-47): `find_one` on the user
id, returning the record's messages, or `[]` when no record exists. -/
def get_conversation (store : List (String × List Message))
    (user_id : String) : List Message :=
  match store.find? (fun r => r.1 == user_id) with
  | some r => r.2
  | none => []

/-- The observable outcome of one call to `chat_endpoint`: the store after
the call, the HTTP response (`Except.ok` the updated history, or
`Except.error` the HTTP 500 detail string), whether `save_conversation`
was invoked, and whether the `user_id` cookie was set on the response. -/
structure ChatResult where
  store : List (String × List Message)
  response : Except String (List Message)
  saveCalled : Bool
  cookieSet : Bool

/-- `chat_endpoint` (backend/main.py lines 87-143). The cookie is set, if
at all, before the `try` block. Any exception inside the `try` block
(completion failure or store-write failure) becomes an HTTP 500 whose
detail is the exception's message, so the updated history is returned only
when both the completion and the write succeed. `saveError` models
`save_conversation` raising (a store failure): `none` means the write
succeeds. `log_user_query` writes to a separate query-log collection, not
the conversation store, and is omitted from the state. -/
def chat_endpoint (store : List (String × List Message))
    (cookieId payloadId : Option String) (uuidHex : List Char)
    (complete : List Message → Except String Message)
    (saveError : Option String) (payloadMessages : List Message) :
    ChatResult :=
  let resolved := resolve_user_id cookieId payloadId (uuid4_string uuidHex)
  match get_agent_response complete payloadMessages with
  | Except.error e => ⟨store, Except.error e, false, resolved.2⟩
  | Except.ok updated =>
      match saveError with
      | some e => ⟨store, Except.error e, true, resolved.2⟩
      | none =>
          ⟨save_conversation store resolved.1 updated, Except.ok updated,
            true, resolved.2⟩

/-- Boolean form of "no element outside position 0 has role system". -/
def systemOnlyLeading (l : List Message) : Bool :=
  l.tail.all (fun m => m.role != "system")

lemma normalizeMessages_of_not_system (h : List Message)
    (hc : headRoleIsSystem h = false) :
    normalizeMessages h = systemPromptMessage :: h := by
  simp [normalizeMessages, hc]

lemma normalizeMessages_of_system (h : List Message)
    (hc : headRoleIsSystem h = true) :
    normalizeMessages h = h := by
  cases h with
  | nil => simp [headRoleIsSystem] at hc
  | cons m t => simp [normalizeMessages, hc]

lemma headRoleIsSystem_normalize (h : List Message) :
    headRoleIsSystem (normalizeMessages h) = true := by
  cases hb : headRoleIsSystem h with
  | true => rw [normalizeMessages_of_system h hb]; exact hb
  | false => rw [normalizeMessages_of_not_system h hb]; rfl

lemma normalizeMessages_ne_nil (h : List Message) :
    normalizeMessages h ≠ [] := by
  intro he
  have := headRoleIsSystem_normalize h
  rw [he] at this
  simp [headRoleIsSystem] at this

lemma get_agent_response_ok (complete : List Message → Except String Message)
    (h : List Message) (reply : Message)
    (hok : complete (normalizeMessages h) = Except.ok reply) :
    get_agent_response complete h =
      Except.ok (normalizeMessages h ++ [⟨"assistant", pyStrip reply.content⟩]) := by
  simp only [get_agent_response, hok]

lemma get_agent_response_error (complete : List Message → Except String Message)
    (h : List Message) (e : String)
    (hfail : complete (normalizeMessages h) = Except.error e) :
    get_agent_response complete h = Except.error e := by
  simp only [get_agent_response, hfail]

lemma systemOnlyLeading_normalize (h : List Message)
    (hin : systemOnlyLeading h = true) :
    systemOnlyLeading (normalizeMessages h) = true := by
  cases hb : headRoleIsSystem h with
  | true => rw [normalizeMessages_of_system h hb]; exact hin
  | false =>
      rw [normalizeMessages_of_not_system h hb]
      cases h with
      | nil => rfl
      | cons m t =>
          simp only [headRoleIsSystem] at hb
          simp only [systemOnlyLeading, List.tail_cons, List.all_cons,
            Bool.and_eq_true, bne_iff_ne, ne_eq] at hin ⊢
          exact ⟨by simpa using hb, hin⟩

lemma systemOnlyLeading_append (l : List Message) (hl : l ≠ [])
    (h1 : systemOnlyLeading l = true) (m : Message)
    (hm : m.role ≠ "system") :
    systemOnlyLeading (l ++ [m]) = true := by
  cases l with
  | nil => exact absurd rfl hl
  | cons x t =>
      simp only [systemOnlyLeading, List.cons_append, List.tail_cons,
        List.all_append, List.all_cons, List.all_nil, Bool.and_eq_true,
        bne_iff_ne, ne_eq] at h1 ⊢
      exact ⟨h1, hm, trivial⟩

/-- A deterministic completion stub returning a fixed reply (the stubbed
collaborator of the scenario examples). -/
def stubComplete (reply : Message) : List Message → Except String Message :=
  fun _ => Except.ok reply

/-- A completion stub that always fails with message `e`. -/
def failComplete (e : String) : List Message → Except String Message :=
  fun _ => Except.error e

lemma uuid4_string_ne_empty (h : List Char) : uuid4_string h ≠ "" := by
  intro heq
  have hd : (uuid4_string h).data = [] := by rw [heq]
  simp [uuid4_string] at hd

/-- C1: for every history whose first element's role is not "system"
(including the empty history), the normalization performed by
`get_agent_response` returns exactly the configured system prompt message
prepended to the history: the length grows by exactly one, element 0 is
the system prompt message whose role is "system", and the remaining
elements are the input unchanged. -/
theorem c1_single_injection (h : List Message)
    (hc : headRoleIsSystem h = false) :
    normalizeMessages h = systemPromptMessage :: h ∧
    (normalizeMessages h).length = h.length + 1 ∧
    (normalizeMessages h).head? = some systemPromptMessage ∧
    systemPromptMessage.role = "system" ∧
    (normalizeMessages h).tail = h := by
  have e := normalizeMessages_of_not_system h hc
  refine ⟨e, ?_, ?_, rfl, ?_⟩ <;> simp [e]

/-- C1 witness: a single user message is not system-led, and normalizing
it prepends the system prompt message. -/
theorem c1_witness :
    headRoleIsSystem [(⟨"user", "hi"⟩ : Message)] = false ∧
    normalizeMessages [(⟨"user", "hi"⟩ : Message)] =
      systemPromptMessage :: [(⟨"user", "hi"⟩ : Message)] :=
  ⟨rfl, (c1_single_injection [⟨"user", "hi"⟩] rfl).1⟩

/-- C7: normalization is the identity on already-normalized input — a
non-empty history whose first element has role "system" passes through
unchanged, whatever its content — and normalization is idempotent on
every history. -/
theorem c7_normalize_idempotent :
    (∀ h : List Message, headRoleIsSystem h = true → normalizeMessages h = h) ∧
    (∀ h : List Message,
      normalizeMessages (normalizeMessages h) = normalizeMessages h) := by
  constructor
  · exact normalizeMessages_of_system
  · intro h
    exact normalizeMessages_of_system _ (headRoleIsSystem_normalize h)

/-- C7 witness: a history led by a custom system message (content differing
from the configured constant) is left completely unchanged. -/
theorem c7_witness :
    headRoleIsSystem [(⟨"system", "custom"⟩ : Message), ⟨"user", "hi"⟩] = true ∧
    normalizeMessages [(⟨"system", "custom"⟩ : Message), ⟨"user", "hi"⟩] =
      [(⟨"system", "custom"⟩ : Message), ⟨"user", "hi"⟩] :=
  ⟨rfl, c7_normalize_idempotent.1 [⟨"system", "custom"⟩, ⟨"user", "hi"⟩] rfl⟩

/-- C2 counterexample: the input `[{user, a}, {system, b}]` has a system
message at position 1; normalization prepends the system prompt and leaves
it at position 2, so an element other than element 0 has role "system",
contradicting the claimed invariant. -/
theorem c2_counterexample :
    normalizeMessages [(⟨"user", "a"⟩ : Message), ⟨"system", "b"⟩] =
      [systemPromptMessage, ⟨"user", "a"⟩, ⟨"system", "b"⟩] ∧
    (normalizeMessages [(⟨"user", "a"⟩ : Message), ⟨"system", "b"⟩])[2]?.map
      Message.role = some "system" :=
  ⟨rfl, rfl⟩

/-- C2 (amended): for every input history the normalized history is
non-empty with element 0 of role "system"; and provided the input has no
system-role element outside position 0, the normalized history and the
result of a successful turn also have no system-role element outside
position 0. -/
theorem c2_system_leading_invariant (h : List Message)
    (complete : List Message → Except String Message) (reply : Message)
    (hok : complete (normalizeMessages h) = Except.ok reply) :
    (normalizeMessages h ≠ [] ∧
      headRoleIsSystem (normalizeMessages h) = true) ∧
    (systemOnlyLeading h = true →
      systemOnlyLeading (normalizeMessages h) = true ∧
      get_agent_response complete h =
        Except.ok (normalizeMessages h ++
          [⟨"assistant", pyStrip reply.content⟩]) ∧
      systemOnlyLeading (normalizeMessages h ++
        [⟨"assistant", pyStrip reply.content⟩]) = true) := by
  refine ⟨⟨normalizeMessages_ne_nil h, headRoleIsSystem_normalize h⟩, ?_⟩
  intro hin
  refine ⟨systemOnlyLeading_normalize h hin,
    get_agent_response_ok complete h reply hok, ?_⟩
  exact systemOnlyLeading_append _ (normalizeMessages_ne_nil h)
    (systemOnlyLeading_normalize h hin)
    ⟨"assistant", pyStrip reply.content⟩ (by simp)

/-- C2 witness: for the single-user-message history and a stub completion,
the normalized history and the turn result are system-led with no other
system message. -/
theorem c2_witness :
    stubComplete ⟨"assistant", "ok"⟩ (normalizeMessages [⟨"user", "hi"⟩]) =
      Except.ok (⟨"assistant", "ok"⟩ : Message) ∧
    systemOnlyLeading [(⟨"user", "hi"⟩ : Message)] = true ∧
    headRoleIsSystem (normalizeMessages [⟨"user", "hi"⟩]) = true :=
  ⟨rfl, rfl,
    (c2_system_leading_invariant [⟨"user", "hi"⟩]
      (stubComplete ⟨"assistant", "ok"⟩) ⟨"assistant", "ok"⟩ rfl).1.2⟩

/-- C3: whenever the completion function returns a message, the turn's
result is the normalized input extended by exactly one trailing element:
its length is the normalized length plus one and its prefix of that length
is exactly the normalized history. -/
theorem c3_append_only_growth (h : List Message)
    (complete : List Message → Except String Message) (reply : Message)
    (hok : complete (normalizeMessages h) = Except.ok reply) :
    ∃ res, get_agent_response complete h = Except.ok res ∧
      res.length = (normalizeMessages h).length + 1 ∧
      res.take (normalizeMessages h).length = normalizeMessages h := by
  refine ⟨normalizeMessages h ++ [⟨"assistant", pyStrip reply.content⟩],
    get_agent_response_ok complete h reply hok, ?_, ?_⟩
  · simp
  · exact List.take_left _ _

/-- C3 witness: for the empty history and a stub completion the turn
result extends the normalized history by one element. -/
theorem c3_witness :
    stubComplete ⟨"assistant", "yum"⟩ (normalizeMessages []) =
      Except.ok (⟨"assistant", "yum"⟩ : Message) ∧
    ∃ res,
      get_agent_response (stubComplete ⟨"assistant", "yum"⟩) [] =
        Except.ok res ∧
      res.length = (normalizeMessages []).length + 1 ∧
      res.take (normalizeMessages []).length = normalizeMessages [] :=
  ⟨rfl, c3_append_only_growth []
    (stubComplete ⟨"assistant", "yum"⟩) ⟨"assistant", "yum"⟩ rfl⟩

/-- C8 counterexample: a completion reply whose content carries surrounding
whitespace is not appended verbatim — the code strips it. With reply
content " Try rice. ", the appended element's content is "Try rice.",
which differs from the reply content. -/
theorem c8_counterexample :
    get_agent_response (stubComplete ⟨"assistant", " Try rice. "⟩) [] =
      Except.ok [systemPromptMessage, ⟨"assistant", "Try rice."⟩] ∧
    (⟨"assistant", "Try rice."⟩ : Message) ≠ ⟨"assistant", " Try rice. "⟩ :=
  ⟨rfl, by decide⟩

/-- C8 (amended): the trailing element of a turn's result is the
completion reply's message with role "assistant" and content equal to the
reply's content with leading and trailing whitespace stripped (Python
`.strip()`); in particular, when the content has no surrounding
whitespace, it is appended verbatim. -/
theorem c8_reply_appended (h : List Message)
    (complete : List Message → Except String Message) (reply : Message)
    (hok : complete (normalizeMessages h) = Except.ok reply) :
    get_agent_response complete h =
      Except.ok (normalizeMessages h ++
        [⟨"assistant", pyStrip reply.content⟩]) ∧
    (Message.mk "assistant" (pyStrip reply.content)).role = "assistant" ∧
    (pyStrip reply.content = reply.content →
      (Message.mk "assistant" (pyStrip reply.content)).content =
        reply.content) :=
  ⟨get_agent_response_ok complete h reply hok, rfl, fun hp => hp⟩

/-- C8 witness: a reply without surrounding whitespace is appended with
role "assistant" and its content unchanged. -/
theorem c8_witness :
    stubComplete ⟨"assistant", "ok"⟩ (normalizeMessages []) =
      Except.ok (⟨"assistant", "ok"⟩ : Message) ∧
    get_agent_response (stubComplete ⟨"assistant", "ok"⟩) [] =
      Except.ok (normalizeMessages [] ++ [⟨"assistant", pyStrip "ok"⟩]) :=
  ⟨rfl, (c8_reply_appended [] (stubComplete ⟨"assistant", "ok"⟩)
    ⟨"assistant", "ok"⟩ rfl).1⟩

/-- C4: identity resolution priority. A non-empty payload id wins and is
re-issued (cookie set), even when a cookie id is present; otherwise a
non-empty cookie id is used silently (no cookie set); otherwise the
freshly generated uuid — always a non-empty string — is used and issued. -/
theorem c4_identity_priority (cookieId payloadId : Option String)
    (uuidHex : List Char) :
    (∀ s, payloadId = some s → s ≠ "" →
      resolve_user_id cookieId payloadId (uuid4_string uuidHex) =
        (s, true)) ∧
    (truthy payloadId = false →
      ∀ s, cookieId = some s → s ≠ "" →
        resolve_user_id cookieId payloadId (uuid4_string uuidHex) =
          (s, false)) ∧
    (truthy payloadId = false → truthy cookieId = false →
      resolve_user_id cookieId payloadId (uuid4_string uuidHex) =
        (uuid4_string uuidHex, true) ∧
      uuid4_string uuidHex ≠ "") := by
  refine ⟨?_, ?_, ?_⟩
  · intro s hs hne
    subst hs
    have hE : s.isEmpty = false := by
      rw [Bool.eq_false_iff]
      intro hE
      exact hne ((String.isEmpty_iff s).mp hE)
    have ht : truthy (some s) = true := by
      simp [truthy, hE]
    simp [resolve_user_id, ht]
  · intro hp s hc hne
    subst hc
    have hE : s.isEmpty = false := by
      rw [Bool.eq_false_iff]
      intro hE
      exact hne ((String.isEmpty_iff s).mp hE)
    have ht : truthy (some s) = true := by
      simp [truthy, hE]
    simp [resolve_user_id, hp, ht]
  · intro hp hc
    exact ⟨by simp [resolve_user_id, hp, hc], uuid4_string_ne_empty uuidHex⟩

/-- C4 witness: a payload id "A" beats a cookie id "B" and is re-issued;
with no payload id the cookie id "B" is used silently. -/
theorem c4_witness :
    resolve_user_id (some "B") (some "A") (uuid4_string []) = ("A", true) ∧
    resolve_user_id (some "B") none (uuid4_string []) = ("B", false) :=
  ⟨(c4_identity_priority (some "B") (some "A") []).1 "A" rfl (by decide),
    (c4_identity_priority (some "B") none []).2.1 rfl "B" rfl (by decide)⟩

/-- C10: an empty-string `user_id` cookie is falsy in Python, so with no
payload id a fresh identifier is generated and issued — the empty string
is never adopted — exactly as when no cookie is sent at all; the generated
uuid string is non-empty. -/
theorem c10_empty_cookie_fresh (uuidHex : List Char) :
    resolve_user_id (some "") none (uuid4_string uuidHex) =
      (uuid4_string uuidHex, true) ∧
    uuid4_string uuidHex ≠ "" ∧
    resolve_user_id (some "") none (uuid4_string uuidHex) =
      resolve_user_id none none (uuid4_string uuidHex) :=
  ⟨rfl, uuid4_string_ne_empty uuidHex, rfl⟩

/-- C5: when the completion call fails, the chat endpoint propagates the
error (HTTP 500 with the exception's message), `save_conversation` is not
invoked, and the store — hence every user's record — is unchanged. -/
theorem c5_no_write_on_completion_failure
    (store : List (String × List Message)) (cookieId payloadId : Option String)
    (uuidHex : List Char) (complete : List Message → Except String Message)
    (saveError : Option String) (msgs : List Message) (e : String)
    (hfail : complete (normalizeMessages msgs) = Except.error e) :
    (chat_endpoint store cookieId payloadId uuidHex complete saveError
        msgs).store = store ∧
    (chat_endpoint store cookieId payloadId uuidHex complete saveError
        msgs).saveCalled = false ∧
    (chat_endpoint store cookieId payloadId uuidHex complete saveError
        msgs).response = Except.error e := by
  have hga := get_agent_response_error complete msgs e hfail
  simp [chat_endpoint, hga]

/-- C5 witness: with a failing completion stub, the endpoint leaves the
store untouched, skips the write and reports the error. -/
theorem c5_witness :
    failComplete "boom" (normalizeMessages [⟨"user", "hi"⟩]) =
      Except.error "boom" ∧
    (chat_endpoint [("u", [])] none none [] (failComplete "boom") none
        [⟨"user", "hi"⟩]).store = [("u", [])] ∧
    (chat_endpoint [("u", [])] none none [] (failComplete "boom") none
        [⟨"user", "hi"⟩]).saveCalled = false :=
  ⟨rfl,
    (c5_no_write_on_completion_failure [("u", [])] none none []
      (failComplete "boom") none [⟨"user", "hi"⟩] "boom" rfl).1,
    (c5_no_write_on_completion_failure [("u", [])] none none []
      (failComplete "boom") none [⟨"user", "hi"⟩] "boom" rfl).2.1⟩

/-- C6 counterexample: the completion succeeds but the store write fails;
the endpoint's `try` block turns the write failure into an HTTP 500, so
the response is the error detail — not the updated message history. -/
theorem c6_counterexample :
    (chat_endpoint [] none none [] (stubComplete ⟨"assistant", "ok"⟩)
        (some "db down") []).response = Except.error "db down" ∧
    ((chat_endpoint [] none none [] (stubComplete ⟨"assistant", "ok"⟩)
        (some "db down") []).response).toOption = none :=
  ⟨rfl, rfl⟩

/-- C6 (amended): when the store write fails after a successful
completion, the endpoint reports the failure to the caller as an error
(HTTP 500 with the write's exception message); the updated history is not
returned and no durable record is written, though the write was
attempted. -/
theorem c6_store_failure_is_error
    (store : List (String × List Message)) (cookieId payloadId : Option String)
    (uuidHex : List Char) (complete : List Message → Except String Message)
    (msgs : List Message) (reply : Message) (e : String)
    (hok : complete (normalizeMessages msgs) = Except.ok reply) :
    (chat_endpoint store cookieId payloadId uuidHex complete (some e)
        msgs).response = Except.error e ∧
    (chat_endpoint store cookieId payloadId uuidHex complete (some e)
        msgs).store = store ∧
    (chat_endpoint store cookieId payloadId uuidHex complete (some e)
        msgs).saveCalled = true := by
  have hga := get_agent_response_ok complete msgs reply hok
  simp [chat_endpoint, hga]

/-- C6 witness: concrete instance of the store-failure behaviour. -/
theorem c6_witness :
    stubComplete ⟨"assistant", "ok"⟩ (normalizeMessages []) =
      Except.ok (⟨"assistant", "ok"⟩ : Message) ∧
    (chat_endpoint [] none none [] (stubComplete ⟨"assistant", "ok"⟩)
        (some "down") []).response = Except.error "down" :=
  ⟨rfl,
    (c6_store_failure_is_error [] none none []
      (stubComplete ⟨"assistant", "ok"⟩) [] ⟨"assistant", "ok"⟩ "down"
      rfl).1⟩

/-- C9: looking up the conversation history of a user id with no record in
the store returns the empty sequence (and, the lookup being a total
function, never an error). -/
theorem c9_missing_user_empty (store : List (String × List Message))
    (user_id : String) (habs : ∀ r ∈ store, r.1 ≠ user_id) :
    get_conversation store user_id = [] := by
  have hf : store.find? (fun r => r.1 == user_id) = none := by
    rw [List.find?_eq_none]
    intro x hx
    simp [habs x hx]
  simp [get_conversation, hf]

/-- C9 witness: a store holding only "alice" yields the empty history for
"never-seen-id". -/
theorem c9_witness :
    (∀ r ∈ [("alice", [(⟨"user", "hi"⟩ : Message)])], r.1 ≠ "never-seen-id") ∧
    get_conversation [("alice", [(⟨"user", "hi"⟩ : Message)])]
      "never-seen-id" = [] :=
  ⟨by decide,
    c9_missing_user_empty [("alice", [⟨"user", "hi"⟩])] "never-seen-id"
      (by decide)⟩
